import Mathlib

/-!
Verification development for the pyfastocloud protocol engine
(`pyfastocloud/client.py`, `pyfastocloud/fastocloud_client.py`,
`pyfastocloud/subscriber_client.py`).

The Python classes `Client` and `FastoCloudClient` duplicate the same
protocol engine (framing, correlation-id generation, pending-request
table, lifecycle state machine); the definitions below embed that engine
once.  Machine integers are modelled as `Nat` with explicit bounds, byte
strings as `List Nat` (each element `< 256`), and the side effects of a
method (socket writes, handler callbacks) as an explicit list of events
returned next to the updated connection state.
-/

set_option autoImplicit false

namespace PyFastoCloud

/-- Modelled from the spec: the lifecycle states of the missing module
`pyfastocloud/client_constants.py` (`ClientStatus`): INIT, CONNECTED,
ACTIVE. -/
inductive ClientStatus where
  | INIT
  | CONNECTED
  | ACTIVE
  deriving DecidableEq, Repr

/-- A structured JSON-ish value, enough to embed the `params` dictionaries
and `result` payloads the engine builds (strings, ints, nested dicts). -/
inductive PyVal where
  | str (s : String)
  | num (n : Int)
  | dict (entries : List (String × PyVal))
  deriving Repr

/-! ## Correlation ids (`generate_seq_id`, client.py lines 18-23) -/

/-- One lowercase hexadecimal digit, as produced by Python `bytes.hex()`. -/
def hexDigitChar (n : Nat) : Char :=
  if n < 10 then Char.ofNat (48 + n) else Char.ofNat (87 + n)

/-- The two hex characters of one byte, high nibble first (`bytes.hex()`). -/
def byteToHex (b : Nat) : List Char :=
  [hexDigitChar (b / 16), hexDigitChar (b % 16)]

/-- Embeds command_id.to_bytes(8, byteorder=big): the eight bytes of a 64-bit
value, most significant first. -/
def toBytesBE8 (n : Nat) : List Nat :=
  [n / 72057594037927936 % 256,
   n / 281474976710656 % 256,
   n / 1099511627776 % 256,
   n / 4294967296 % 256,
   n / 16777216 % 256,
   n / 65536 % 256,
   n / 256 % 256,
   n % 256]

/-- Embeds `bytes.hex()`: the concatenation of each byte's two hex characters. -/
def bytesHex (bs : List Nat) : String :=
  String.mk (bs.map byteToHex).flatten

/-- The correlation-id string of a concrete 64-bit command identifier. -/
def seqIdStr (n : Nat) : String :=
  bytesHex (toBytesBE8 n)

/-- Embeds `generate_seq_id(command_id)` (client.py 18-23 and
fastocloud_client.py 16-21): `None` maps to `None`, otherwise the
identifier is encoded as 8 big-endian bytes and rendered in hex. -/
def generate_seq_id : Option Nat → Option String
  | none => none
  | some command_id => some (seqIdStr command_id)

/-! ## Wire codec (framing) -/

/-- Embeds `Client.MAX_PACKET_SIZE` / `FastoCloudClient.MAX_PACKET_SIZE`. -/
def MAX_PACKET_SIZE : Nat := 4294967295

/-- Embeds `socket.ntohl` on a little-endian host: byte-swap of a 32-bit value
(network-to-host order conversion). -/
def ntohl (n : Nat) : Nat :=
  n % 256 * 16777216 + n / 256 % 256 * 65536 + n / 65536 % 256 * 256 +
    n / 16777216 % 256

/-- Embeds struct.pack of format I on a little-endian host: four bytes, least
significant first (native order, no alignment padding for a lone field). -/
def packNative4 (n : Nat) : List Nat :=
  [n % 256, n / 256 % 256, n / 65536 % 256, n / 16777216 % 256]

/-- Embeds struct.unpack of big-endian format, a 4-byte big-endian unsigned 32-bit
integer.  (Only called on lists of length 4.) -/
def unpackBE4 (bs : List Nat) : Nat :=
  match bs with
  | [b0, b1, b2, b3] => b0 * 16777216 + b1 * 65536 + b2 * 256 + b3
  | _ => 0

/-- Embeds `_generate_data_to_send` (client.py 120-125, fastocloud_client.py
232-237): compress the payload, convert the compressed length with
`socket.ntohl`, pack it in native order, and prepend it to the compressed
bytes.  The compressor is the injected capability
(`CompressorZlib.compress`), passed here as a function. -/
def generate_data_to_send (compress : List Nat → List Nat)
    (payload : List Nat) : List Nat :=
  let compressed := compress payload
  packNative4 (ntohl compressed.length) ++ compressed

/-- Embeds `_recv(n)` (client.py 145-153): loop reading from the socket until `n`
bytes are gathered, returning `none` when the peer closes first.  The
socket's remaining input is a finite byte list; a short list is an early
close. -/
def recvExact (n : Nat) (stream : List Nat) :
    Option (List Nat × List Nat) :=
  if n ≤ stream.length then some (stream.take n, stream.drop n) else none

/-- Embeds `read_command` (client.py 71-83, fastocloud_client.py 168-180): when
not connected return `none`; read the 4-byte prefix (`none` when it cannot
be read), unpack it big-endian, reject sizes above `MAX_PACKET_SIZE`, then
read exactly that many bytes. -/
def read_command (st : ClientStatus) (stream : List Nat) :
    Option (List Nat) :=
  if st = ClientStatus.INIT then none
  else
    match recvExact 4 stream with
    | none => none
    | some (data_size_bytes, rest) =>
      let data_size := unpackBE4 data_size_bytes
      if data_size > MAX_PACKET_SIZE then none
      else (recvExact data_size rest).map Prod.fst

/-- Variant of `read_command` with the size guard removed;
stated only to compare with `read_command` (the spec says the guard is
defensive and can never fire). -/
def read_command_unchecked (st : ClientStatus) (stream : List Nat) :
    Option (List Nat) :=
  if st = ClientStatus.INIT then none
  else
    match recvExact 4 stream with
    | none => none
    | some (data_size_bytes, rest) =>
      let data_size := unpackBE4 data_size_bytes
      (recvExact data_size rest).map Prod.fst

/-! ## Message model (from the missing `pyfastocloud/json_rpc.py`) -/

/-- Modelled from the spec: `Request` of the missing module
`pyfastocloud/json_rpc.py` — `id` (absent for notifications), `method`,
and a structured `params` value. -/
structure Request where
  id : Option String
  method : String
  params : List (String × PyVal)
  deriving Repr

/-- Modelled from the spec: a Request is a notification iff its `id` is
absent (`Request.is_notification` of the missing `json_rpc.py`). -/
def Request.is_notification (r : Request) : Bool :=
  r.id.isNone

/-- Modelled from the spec: the error object shape
`code : int, message : string` of the missing `json_rpc.py`. -/
structure JsonRPCError where
  code : Int
  message : String
  deriving Repr

/-- Modelled from the spec: `Response` of the missing module
`pyfastocloud/json_rpc.py` — `id`, and exactly one of `result` / `error`
present. -/
structure Response where
  id : Option String
  result : Option PyVal
  error : Option JsonRPCError
  deriving Repr

/-- Modelled from the spec: `Response.is_message` of the missing
`json_rpc.py` — the Response denotes success, i.e. carries a `result`
(the spec: "Exactly one of `result`/`error` is present", with `result`
denoting success). -/
def Response.is_message (r : Response) : Bool :=
  r.result.isSome

/-- Modelled from the spec: the `OK` result sentinel
(`JSONRPC_OK_RESULT` of the missing `json_rpc.py`), a fixed value used as
a pure acknowledgement. -/
def JSONRPC_OK_RESULT : PyVal := PyVal.str "OK"

/-- Modelled from the spec: command-name constants of the missing module
`pyfastocloud/client_constants.py` (`Commands`).  Their exact string
values are not observable to the engine; only their distinctness matters,
so they are fixed as distinct strings. -/
def Commands.CLIENT_PING_COMMAND : String := "client_ping"

/-- Modelled from the spec: the activation command name of the missing
`client_constants.py`. -/
def Commands.ACTIVATE_COMMAND : String := "activate_request"

/-- Modelled from the spec: the stop-service command name of the missing
`client_constants.py`. -/
def Commands.STOP_SERVICE_COMMAND : String := "stop_service"

/-- Modelled from the spec: the keepalive-ping command name of the missing
`client_constants.py`. -/
def Commands.SERVICE_PING_COMMAND : String := "ping_service"

/-- Field-name constants (`Fields`, fastocloud_client.py 32-48). -/
def Fields.TIMESTAMP : String := "timestamp"

/-- Embeds `Fields.LICENSE_KEY` (fastocloud_client.py 45). -/
def Fields.LICENSE_KEY : String := "license_key"

/-- Embeds `Fields.DELAY` (fastocloud_client.py 48). -/
def Fields.DELAY : String := "delay"

/-! ## The pending-request table (a Python `dict`)

`self._request_queue` is a Python dict from correlation-id string to
Request; dict keys are unique, assignment overwrites, and
`pop(key, None)` removes and returns the entry (or `None`). -/

/-- Embeds assignment d[k] = v on a Python dict embedded as a unique-key assoc list:
replace the existing entry for `k`, or append a fresh one. -/
def dictInsert (k : String) (v : Request) :
    List (String × Request) → List (String × Request)
  | [] => [(k, v)]
  | p :: rest =>
    if p.1 = k then (k, v) :: rest else p :: dictInsert k v rest

/-- Embeds `d.pop(k, None)`: the removed entry (or `none`) and the remaining
table. -/
def dictPop (k : String) :
    List (String × Request) → Option Request × List (String × Request)
  | [] => (none, [])
  | p :: rest =>
    if p.1 = k then (some p.2, rest)
    else
      let r := dictPop k rest
      (r.1, p :: r.2)

/-- Embeds `d.get(k)`: lookup without removal (used only in theorem statements). -/
def dictFind (k : String) : List (String × Request) → Option Request
  | [] => none
  | p :: rest => if p.1 = k then some p.2 else dictFind k rest

/-! ## Connection state and effects -/

/-- One observable side effect of an engine operation: a socket write of
an encoded Request or Response, a handler callback, or a socket close. -/
inductive Event where
  | stateChanged (st : ClientStatus)
  | sentRequest (r : Request)
  | sentResponse (r : Response)
  | handledRequest (r : Request)
  | handledResponse (orig : Option Request) (r : Response)
  | socketClosed
  deriving Repr

/-- The mutable state of one connection: `self._state`,
`self._request_queue`, whether `self._socket` is an open socket (`false`
models `None`/closed), and whether `self._handler` is set. -/
structure ClientState where
  state : ClientStatus
  request_queue : List (String × Request)
  socketOpen : Bool
  hasHandler : Bool
  deriving Repr

/-- Embeds `is_active` (client.py 45-46, fastocloud_client.py 63-64). -/
def is_active (s : ClientState) : Bool :=
  s.state = ClientStatus.ACTIVE

/-- Embeds `is_connected` (client.py 59-60, fastocloud_client.py 91-92). -/
def is_connected (s : ClientState) : Bool :=
  s.state ≠ ClientStatus.INIT

/-- Embeds `_set_state` (client.py 102-105, fastocloud_client.py 209-212): store
the new status and, when a handler is present, fire
`on_client_state_changed`. -/
def set_state (s : ClientState) (st : ClientStatus) :
    ClientState × List Event :=
  ({ s with state := st },
   if s.hasHandler then [Event.stateChanged st] else [])

/-- Embeds `_reset` (client.py 97-100, fastocloud_client.py 204-207): close the
socket, drop it, and `_set_state(INIT)`.  Note: the pending
`_request_queue` is NOT touched. -/
def reset (s : ClientState) : ClientState × List Event :=
  let r := set_state { s with socketOpen := false } ClientStatus.INIT
  (r.1, Event.socketClosed :: r.2)

/-- Embeds `disconnect` (client.py 62-66, fastocloud_client.py 94-98): a no-op
unless connected, otherwise `_reset`. -/
def disconnect (s : ClientState) : ClientState × List Event :=
  if is_connected s then reset s else (s, [])

/-- Embeds `_send_request` (client.py 107-118, fastocloud_client.py 219-230):
when connected, build the Request with the generated correlation id,
register it in the pending table unless it is a notification (i.e. unless
the id is absent), and write the framed encoding to the socket. -/
def send_request (s : ClientState) (command_id : Option Nat)
    (method : String) (params : List (String × PyVal)) :
    ClientState × List Event :=
  if is_connected s then
    let cid := generate_seq_id command_id
    let req : Request := { id := cid, method := method, params := params }
    let s1 :=
      match cid with
      | none => s
      | some c => { s with request_queue := dictInsert c req s.request_queue }
    (s1, [Event.sentRequest req])
  else (s, [])

/-- Embeds `_send_notification` (client.py 127-128, fastocloud_client.py
239-240): `_send_request` with absent command id. -/
def send_notification (s : ClientState) (method : String)
    (params : List (String × PyVal)) : ClientState × List Event :=
  send_request s none method params

/-- Embeds `activate` (fastocloud_client.py 103-105): not gated by the
activity decorator; sends the activation request. -/
def activate (s : ClientState) (command_id : Nat) (license_key : String) :
    ClientState × List Event :=
  send_request s (some command_id) Commands.ACTIVATE_COMMAND
    [(Fields.LICENSE_KEY, PyVal.str license_key)]

/-- The closure produced by `is_active_decorator` (client.py 48-54,
fastocloud_client.py 66-72): `closure(self, *args, **kwargs)` returns
doing nothing unless `is_active()`, and otherwise evaluates
`func(self, *args, *kwargs)` — the single-star unpack of the keyword
dictionary iterates over its KEYS, so the wrapped function receives the
positional arguments followed by the keyword names (as strings); the
keyword values are dropped. -/
def is_active_closure
    (func : ClientState → List PyVal → ClientState × List Event)
    (s : ClientState) (args : List PyVal)
    (kwargs : List (String × PyVal)) : ClientState × List Event :=
  if is_active s then
    func s (args ++ kwargs.map (fun kv => PyVal.str kv.1))
  else (s, [])

/-- Embeds `ping_service` (fastocloud_client.py 107-109), a gated operation: the
decorator's activity guard, then `_send_request` of the service-ping
command with the current timestamp (passed here as `now`). -/
def ping_service (s : ClientState) (command_id : Nat) (now : Int) :
    ClientState × List Event :=
  if is_active s then
    send_request s (some command_id) Commands.SERVICE_PING_COMMAND
      [(Fields.TIMESTAMP, PyVal.num now)]
  else (s, [])

/-- Embeds `stop_service` (fastocloud_client.py 133-136), a gated operation. -/
def stop_service (s : ClientState) (command_id : Nat) (delay : Int) :
    ClientState × List Event :=
  if is_active s then
    send_request s (some command_id) Commands.STOP_SERVICE_COMMAND
      [(Fields.DELAY, PyVal.num delay)]
  else (s, [])

/-- Embeds `_pong` (fastocloud_client.py 214-217), a gated operation:
`_send_response(command_id, ...timestamp...)`, writing the Response to
the socket (no table interaction). -/
def pong (s : ClientState) (command_id : Option String) (now : Int) :
    ClientState × List Event :=
  if is_active s then
    (s, [Event.sentResponse
      { id := command_id,
        result := some (PyVal.dict [(Fields.TIMESTAMP, PyVal.num now)]),
        error := none }])
  else (s, [])

/-- Embeds `process_commands` (fastocloud_client.py 182-201), applied to the
already-decoded message (`_decode_response_or_request` — zlib inflate
plus JSON parsing by the injected capabilities — runs upstream and yields
the `(req, resp)` pair).  Inbound Requests trigger the keepalive
auto-reply and are forwarded to the handler; inbound Responses pop the
pending table and may drive the activation / stop-service transitions. -/
def process_commands (s : ClientState)
    (msg : Option Request × Option Response) (now : Int) :
    ClientState × List Event :=
  match msg with
  | (some req, _) =>
    let r1 :=
      if req.method = Commands.CLIENT_PING_COMMAND then pong s req.id now
      else (s, [])
    (r1.1, r1.2 ++ if r1.1.hasHandler then [Event.handledRequest req] else [])
  | (none, some resp) =>
    let popped :=
      match resp.id with
      | none => (none, s.request_queue)
      | some k => dictPop k s.request_queue
    let saved_req := popped.1
    let s1 := { s with request_queue := popped.2 }
    let r2 :=
      match saved_req with
      | some sr =>
        if sr.method = Commands.ACTIVATE_COMMAND ∧ resp.is_message then
          set_state s1 ClientStatus.ACTIVE
        else if sr.method = Commands.STOP_SERVICE_COMMAND ∧ resp.is_message then
          reset s1
        else (s1, [])
      | none => (s1, [])
    (r2.1, r2.2 ++
      if r2.1.hasHandler then [Event.handledResponse saved_req resp] else [])
  | (none, none) => (s, [])

/-! ## Concrete fixtures used by counterexamples and witnesses -/

/-- A pending stop-service request with correlation id
`"0000000000000001"` (the id `generate_seq_id` yields for command id 1). -/
def stopReq : Request :=
  { id := some "0000000000000001",
    method := Commands.STOP_SERVICE_COMMAND, params := [] }

/-- A pending activation request with correlation id
`"0000000000000001"`. -/
def activateReq : Request :=
  { id := some "0000000000000001",
    method := Commands.ACTIVATE_COMMAND,
    params := [(Fields.LICENSE_KEY, PyVal.str "lic")] }

/-- A success (`OK`) Response correlated to `"0000000000000001"`. -/
def okResp : Response :=
  { id := some "0000000000000001", result := some JSONRPC_OK_RESULT,
    error := none }

/-- An error Response correlated to `"0000000000000001"`. -/
def errResp : Response :=
  { id := some "0000000000000001", result := none,
    error := some { code := -32603, message := "server error" } }

/-- An ACTIVE connection with one pending stop-service request. -/
def activeStopState : ClientState :=
  { state := ClientStatus.ACTIVE,
    request_queue := [("0000000000000001", stopReq)],
    socketOpen := true, hasHandler := true }

/-- A CONNECTED connection with one pending activation request. -/
def connectedActivateState : ClientState :=
  { state := ClientStatus.CONNECTED,
    request_queue := [("0000000000000001", activateReq)],
    socketOpen := true, hasHandler := true }

/-- A freshly constructed, unconnected connection. -/
def initState : ClientState :=
  { state := ClientStatus.INIT, request_queue := [],
    socketOpen := false, hasHandler := true }

/-- A CONNECTED connection with an empty pending table. -/
def connectedState : ClientState :=
  { state := ClientStatus.CONNECTED, request_queue := [],
    socketOpen := true, hasHandler := true }

/-- A success Response correlated to the correlation id of command
identifier 2. -/
def okResp2 : Response :=
  { id := some (seqIdStr 2), result := some JSONRPC_OK_RESULT,
    error := none }

/-! ## Lemmas: injectivity of the correlation id -/

theorem hexDigitChar_inj :
    ∀ a < 16, ∀ b < 16, hexDigitChar a = hexDigitChar b → a = b := by
  decide

theorem byteToHex_inj {a b : Nat} (ha : a < 256) (hb : b < 256)
    (h : byteToHex a = byteToHex b) : a = b := by
  simp only [byteToHex, List.cons.injEq, and_true] at h
  have h1 := hexDigitChar_inj (a / 16) (by omega) (b / 16) (by omega) h.1
  have h2 := hexDigitChar_inj (a % 16) (by omega) (b % 16) (by omega) h.2
  omega

theorem byteToHex_flatten_inj :
    ∀ l1 l2 : List Nat, l1.length = l2.length →
      (∀ x ∈ l1, x < 256) → (∀ x ∈ l2, x < 256) →
      (l1.map byteToHex).flatten = (l2.map byteToHex).flatten → l1 = l2 := by
  intro l1
  induction l1 with
  | nil =>
    intro l2 hlen _ _ _
    exact (List.length_eq_zero.mp hlen.symm).symm
  | cons x xs ih =>
    intro l2 hlen hb1 hb2 h
    cases l2 with
    | nil => simp at hlen
    | cons y ys =>
      simp only [List.map_cons, List.flatten_cons] at h
      have hxy : byteToHex x = byteToHex y ∧
          (xs.map byteToHex).flatten = (ys.map byteToHex).flatten := by
        apply List.append_inj h
        simp [byteToHex]
      have hx : x = y :=
        byteToHex_inj (hb1 x (by simp)) (hb2 y (by simp)) hxy.1
      have hrest : xs = ys := by
        apply ih ys (by simpa using hlen)
          (fun z hz => hb1 z (by simp [hz]))
          (fun z hz => hb2 z (by simp [hz])) hxy.2
      rw [hx, hrest]

theorem base256_digits_inj (k : Nat) :
    ∀ a b : Nat, a < 256 ^ k → b < 256 ^ k →
      (∀ i < k, a / 256 ^ i % 256 = b / 256 ^ i % 256) → a = b := by
  induction k with
  | zero =>
    intro a b ha hb _
    simp only [pow_zero, Nat.lt_one_iff] at ha hb
    omega
  | succ k ih =>
    intro a b ha hb h
    have h0 := h 0 (by omega)
    simp only [pow_zero, Nat.div_one] at h0
    have hd : a / 256 = b / 256 := by
      apply ih
      · exact Nat.div_lt_of_lt_mul (by rw [← pow_succ']; exact ha)
      · exact Nat.div_lt_of_lt_mul (by rw [← pow_succ']; exact hb)
      · intro i hi
        have hh := h (i + 1) (by omega)
        rw [pow_succ', ← Nat.div_div_eq_div_mul, ← Nat.div_div_eq_div_mul]
          at hh
        exact hh
    omega

theorem toBytesBE8_mem_lt {n x : Nat} (hx : x ∈ toBytesBE8 n) : x < 256 := by
  simp only [toBytesBE8, List.mem_cons, List.not_mem_nil, or_false] at hx
  rcases hx with h | h | h | h | h | h | h | h <;> omega

theorem seqIdStr_inj {a b : Nat}
    (ha : a < 18446744073709551616) (hb : b < 18446744073709551616)
    (h : seqIdStr a = seqIdStr b) : a = b := by
  have hjoin : ((toBytesBE8 a).map byteToHex).flatten =
      ((toBytesBE8 b).map byteToHex).flatten := by
    have := congrArg String.data h
    simpa [seqIdStr, bytesHex] using this
  have hbytes : toBytesBE8 a = toBytesBE8 b :=
    byteToHex_flatten_inj _ _ (by simp [toBytesBE8])
      (fun x hx => toBytesBE8_mem_lt hx)
      (fun x hx => toBytesBE8_mem_lt hx) hjoin
  simp only [toBytesBE8, List.cons.injEq, and_true] at hbytes
  apply base256_digits_inj 8 a b (by norm_num [ha]) (by norm_num [hb])
  intro i hi
  interval_cases i <;> simp only [pow_succ, pow_zero] <;> norm_num <;>
    omega

/-! ## Lemmas: the wire codec -/

/-- The byte-order asymmetry cancels: packing `ntohl n` in native
(little-endian) order yields the big-endian encoding of `n`, so the
big-endian unpack recovers `n` exactly (for 32-bit `n`). -/
theorem unpackBE4_linear {A B C D : Nat}
    (hA : A < 256) (hB : B < 256) (hC : C < 256) (hD : D < 256) :
    unpackBE4 (packNative4 (D * 16777216 + C * 65536 + B * 256 + A)) =
      A * 16777216 + B * 65536 + C * 256 + D := by
  simp only [unpackBE4, packNative4]
  omega

theorem unpackBE4_packNative4_ntohl {n : Nat} (h : n < 4294967296) :
    unpackBE4 (packNative4 (ntohl n)) = n := by
  have key := unpackBE4_linear (A := n / 16777216 % 256) (B := n / 65536 % 256)
    (C := n / 256 % 256) (D := n % 256)
    (by omega) (by omega) (by omega) (by omega)
  have hshape : ntohl n = n % 256 * 16777216 + n / 256 % 256 * 65536 +
      n / 65536 % 256 * 256 + n / 16777216 % 256 := rfl
  rw [hshape, key]
  have d1 : n / 256 / 256 = n / 65536 := by
    rw [Nat.div_div_eq_div_mul]
  have d2 : n / 65536 / 256 = n / 16777216 := by
    rw [Nat.div_div_eq_div_mul]
  omega

theorem unpackBE4_le {b0 b1 b2 b3 : Nat}
    (h0 : b0 < 256) (h1 : b1 < 256) (h2 : b2 < 256) (h3 : b3 < 256) :
    unpackBE4 [b0, b1, b2, b3] ≤ MAX_PACKET_SIZE := by
  simp only [unpackBE4, MAX_PACKET_SIZE]
  omega

theorem recvExact_append {pre post : List Nat} (h : pre.length = 4) :
    recvExact 4 (pre ++ post) = some (pre, post) := by
  rw [recvExact, if_pos (by simp [h])]
  rw [← h, List.take_left, List.drop_left]

/-! ## Lemmas: the pending-request dict -/

theorem dictFind_insert_self (k : String) (v : Request) :
    ∀ d, dictFind k (dictInsert k v d) = some v := by
  intro d
  induction d with
  | nil => simp [dictInsert, dictFind]
  | cons p rest ih =>
    by_cases h : p.1 = k
    · simp [dictInsert, dictFind, h]
    · simp [dictInsert, dictFind, h, ih]

theorem dictFind_insert_ne {k k' : String} (v : Request) (h : k ≠ k') :
    ∀ d, dictFind k (dictInsert k' v d) = dictFind k d := by
  have h' : ¬(k' = k) := fun hh => h hh.symm
  intro d
  induction d with
  | nil => simp [dictInsert, dictFind, h']
  | cons p rest ih =>
    by_cases hp : p.1 = k'
    · simp [dictInsert, dictFind, hp, h']
    · simp [dictInsert, dictFind, hp, ih]

theorem dictPop_found {k : String} {d : List (String × Request)} {v : Request}
    (h : dictFind k d = some v) : (dictPop k d).1 = some v := by
  induction d with
  | nil => simp [dictFind] at h
  | cons p rest ih =>
    by_cases hp : p.1 = k
    · simp_all [dictFind, dictPop, hp]
    · simp_all [dictFind, dictPop, hp]

/-- Processing an inbound Response always pops its id from the pending
table and touches the table in no other way, whichever transition branch
runs (activation, stop-service reset, or neither). -/
theorem process_queue_after_response (s : ClientState) (k : String)
    (resp : Response) (now : Int) (hid : resp.id = some k) :
    (process_commands s (none, some resp) now).1.request_queue =
      (dictPop k s.request_queue).2 := by
  simp only [process_commands, hid]
  cases hp : dictPop k s.request_queue with
  | mk saved q =>
    cases saved with
    | none => simp
    | some sr =>
      simp only
      split
      · simp [set_state]
      · split
        · simp [reset, set_state]
        · simp

/-! ## Claim theorems -/

/-- Claim C4: `generate_seq_id` is deterministic on 64-bit command
identifiers (it is a pure function of the identifier), injective (two
different identifiers always yield different correlation ids), and maps
command identifier 1 to the 16-character hexadecimal string
`"0000000000000001"`. -/
theorem C4_generate_seq_id :
    (∀ a b : Nat, a < 18446744073709551616 → b < 18446744073709551616 →
      generate_seq_id (some a) = generate_seq_id (some b) → a = b) ∧
    generate_seq_id (some 1) = some "0000000000000001" ∧
    (seqIdStr 1).length = 16 := by
  refine ⟨?_, ?_, ?_⟩
  · intro a b ha hb h
    apply seqIdStr_inj ha hb
    simpa [generate_seq_id] using h
  · decide
  · decide

/-- Witness for C4: the injectivity conjunct applied at the concrete
identifier 1. -/
theorem C4_generate_seq_id_witness :
    (1 : Nat) = 1 ∧ generate_seq_id (some 1) = some "0000000000000001" :=
  ⟨C4_generate_seq_id.1 1 1 (by norm_num) (by norm_num) rfl,
   C4_generate_seq_id.2.1⟩

/-- Claim C3: for every payload whose compressed form fits the 4-byte
length field, framing via the outbound path (`_generate_data_to_send`:
compress, `ntohl`, native-order pack, prepend) and reading back via the
inbound path (`read_command`: read 4 bytes, unpack big-endian, read that
many bytes) followed by decompression yields the original payload. -/
theorem C3_frame_roundtrip (compress decompress : List Nat → List Nat)
    (payload : List Nat) (st : ClientStatus)
    (hrt : decompress (compress payload) = payload)
    (hlen : (compress payload).length < 4294967296)
    (hst : st ≠ ClientStatus.INIT) :
    (read_command st (generate_data_to_send compress payload)).map
      decompress = some payload := by
  have hpack : (packNative4 (ntohl (compress payload).length)).length = 4 := by
    simp [packNative4]
  rw [read_command, if_neg hst, generate_data_to_send]
  rw [recvExact_append hpack]
  simp only [unpackBE4_packNative4_ntohl hlen]
  rw [if_neg (by simp only [MAX_PACKET_SIZE]; omega)]
  rw [recvExact, if_pos (le_refl _)]
  simp [hrt]

/-- Witness for C3: the identity compressor and the payload `[7, 8, 9]`
on a CONNECTED stream. -/
theorem C3_frame_roundtrip_witness :
    (read_command ClientStatus.CONNECTED
        (generate_data_to_send (fun x => x) [7, 8, 9])).map
      (fun x => x) = some [7, 8, 9] :=
  C3_frame_roundtrip (fun x => x) (fun x => x) [7, 8, 9]
    ClientStatus.CONNECTED rfl (by decide) (by decide)

/-- Claim C9: the oversized-length branch of `read_command` is
unreachable — a 4-byte big-endian unpack is always at most 4294967295, so
`read_command` coincides with the same reader without the
`MAX_PACKET_SIZE` bound check on every stream of genuine bytes. -/
theorem C9_size_guard_unreachable :
    (∀ bs : List Nat, bs.length = 4 → (∀ x ∈ bs, x < 256) →
      unpackBE4 bs ≤ MAX_PACKET_SIZE) ∧
    (∀ (st : ClientStatus) (stream : List Nat), (∀ x ∈ stream, x < 256) →
      read_command st stream = read_command_unchecked st stream) := by
  have core : ∀ bs : List Nat, bs.length = 4 → (∀ x ∈ bs, x < 256) →
      unpackBE4 bs ≤ MAX_PACKET_SIZE := by
    intro bs hlen hb
    match bs, hlen with
    | [b0, b1, b2, b3], _ =>
      exact unpackBE4_le (hb b0 (by simp)) (hb b1 (by simp))
        (hb b2 (by simp)) (hb b3 (by simp))
  refine ⟨core, ?_⟩
  intro st stream hb
  rw [read_command, read_command_unchecked]
  by_cases hst : st = ClientStatus.INIT
  · simp [hst]
  · rw [if_neg hst, if_neg hst]
    rcases hrecv : recvExact 4 stream with _ | ⟨pre, rest⟩
    · rfl
    · have hpre : pre.length = 4 ∧ ∀ x ∈ pre, x < 256 := by
        rw [recvExact] at hrecv
        by_cases h4 : 4 ≤ stream.length
        · rw [if_pos h4] at hrecv
          obtain ⟨hp, _⟩ := Prod.mk.injEq .. ▸ Option.some.injEq .. ▸ hrecv
          constructor
          · rw [← hp]; simp [List.length_take]; omega
          · intro x hx
            apply hb
            rw [← hp] at hx
            exact List.mem_of_mem_take hx
        · rw [if_neg h4] at hrecv
          exact absurd hrecv (by simp)
      have hle : ¬unpackBE4 pre > MAX_PACKET_SIZE :=
        not_lt.mpr (core pre hpre.1 hpre.2)
      simp [hle]

/-- Witness for C9: the all-ones length prefix and a short concrete
stream. -/
theorem C9_size_guard_unreachable_witness :
    unpackBE4 [255, 255, 255, 255] ≤ MAX_PACKET_SIZE ∧
    read_command ClientStatus.CONNECTED [0, 0, 0, 0] =
      read_command_unchecked ClientStatus.CONNECTED [0, 0, 0, 0] :=
  ⟨C9_size_guard_unreachable.1 [255, 255, 255, 255] rfl (by decide),
   C9_size_guard_unreachable.2 ClientStatus.CONNECTED [0, 0, 0, 0]
     (by decide)⟩

/-- Claim C5: every operation wrapped by `is_active_decorator`, called
while the state is not ACTIVE (INIT or CONNECTED included), returns
without error, writes nothing, and leaves the whole connection state —
lifecycle state, pending table, socket — unchanged.  Stated for the
generic decorator closure and, concretely, for the gated `ping_service`. -/
theorem C5_gated_noop :
    (∀ (func : ClientState → List PyVal → ClientState × List Event)
        (s : ClientState) (args : List PyVal)
        (kwargs : List (String × PyVal)),
      s.state ≠ ClientStatus.ACTIVE →
      is_active_closure func s args kwargs = (s, [])) ∧
    (∀ (s : ClientState) (command_id : Nat) (now : Int),
      s.state ≠ ClientStatus.ACTIVE →
      ping_service s command_id now = (s, [])) := by
  constructor
  · intro func s args kwargs h
    simp [is_active_closure, is_active, h]
  · intro s command_id now h
    simp [ping_service, is_active, h]

/-- Witness for C5: a gated call in the INIT state is a silent no-op. -/
theorem C5_gated_noop_witness :
    is_active_closure (fun s _ => (s, [])) initState [] [] =
      (initState, []) ∧
    ping_service initState 1 0 = (initState, []) :=
  ⟨C5_gated_noop.1 (fun s _ => (s, [])) initState [] [] (by decide),
   C5_gated_noop.2 initState 1 0 (by decide)⟩

/-- Claim C7: a notification send (absent command identifier, hence
absent correlation id) never registers anything: the pending-request
table — indeed the whole connection state — is unchanged afterwards. -/
theorem C7_notification_not_registered (s : ClientState) (method : String)
    (params : List (String × PyVal)) :
    (send_notification s method params).1.request_queue =
      s.request_queue ∧
    (send_notification s method params).1 = s := by
  have h : (send_notification s method params).1 = s := by
    rw [send_notification, send_request]
    by_cases hc : is_connected s
    · simp [hc, generate_seq_id]
    · simp [hc]
  exact ⟨by rw [h], h⟩

/-- Claim C10: while ACTIVE, the decorator closure forwards
`func(self, *args, *kwargs)` — the keyword names become extra positional
arguments and the keyword values are dropped (two keyword maps with the
same keys are indistinguishable); only a purely positional call (empty
kwargs) behaves as the underlying operation. -/
theorem C10_decorator_kwargs :
    (∀ (func : ClientState → List PyVal → ClientState × List Event)
        (s : ClientState) (args : List PyVal)
        (kwargs : List (String × PyVal)),
      s.state = ClientStatus.ACTIVE →
      is_active_closure func s args kwargs =
        func s (args ++ kwargs.map (fun kv => PyVal.str kv.1))) ∧
    (∀ (func : ClientState → List PyVal → ClientState × List Event)
        (s : ClientState) (args : List PyVal)
        (kw1 kw2 : List (String × PyVal)),
      kw1.map Prod.fst = kw2.map Prod.fst →
      is_active_closure func s args kw1 =
        is_active_closure func s args kw2) ∧
    (∀ (func : ClientState → List PyVal → ClientState × List Event)
        (s : ClientState) (args : List PyVal),
      s.state = ClientStatus.ACTIVE →
      is_active_closure func s args [] = func s args) := by
  refine ⟨?_, ?_, ?_⟩
  · intro func s args kwargs h
    simp [is_active_closure, is_active, h]
  · intro func s args kw1 kw2 h
    have hkeys : kw1.map (fun kv => PyVal.str kv.1) =
        kw2.map (fun kv => PyVal.str kv.1) := by
      have h2 := congrArg (List.map PyVal.str) h
      simpa [List.map_map, Function.comp] using h2
    rw [is_active_closure, is_active_closure, hkeys]
  · intro func s args h
    simp [is_active_closure, is_active, h]

/-- Witness for C10: a concrete keyword call while ACTIVE receives the
keyword name `"command_id"` as an extra positional string argument. -/
theorem C10_decorator_kwargs_witness :
    is_active_closure (fun s _ => (s, [])) activeStopState
        [PyVal.num 5] [("command_id", PyVal.num 7)] =
      (fun s _ => (s, ([] : List Event))) activeStopState
        ([PyVal.num 5] ++
          [("command_id", PyVal.num 7)].map (fun kv => PyVal.str kv.1)) :=
  C10_decorator_kwargs.1 (fun s _ => (s, [])) activeStopState
    [PyVal.num 5] [("command_id", PyVal.num 7)] rfl

/-- Claim C1 counterexample: a caller-initiated `disconnect()` from a
non-INIT state performs the reset (state returns to INIT), yet the
pending-request table afterwards still holds the entry registered before
— `_reset` never clears `_request_queue`, so the table is not empty. -/
theorem C1_counterexample :
    is_connected activeStopState = true ∧
    (disconnect activeStopState).1.state = ClientStatus.INIT ∧
    (disconnect activeStopState).1.request_queue =
      [("0000000000000001", stopReq)] ∧
    (disconnect activeStopState).1.request_queue ≠ [] := by
  refine ⟨rfl, rfl, rfl, ?_⟩
  simp [disconnect, reset, set_state, is_connected, activeStopState]

/-- Claim C1 (amended): after a reset (caller-initiated disconnect, or
the stop-service response transition) the state is INIT and the socket is
closed, but the pending-request table is NOT discarded: `_reset` leaves
it exactly as it was, and a Response only pops its own entry. -/
theorem C1_reset_keeps_pending_table :
    (∀ s : ClientState,
      (reset s).1.request_queue = s.request_queue ∧
      (reset s).1.state = ClientStatus.INIT ∧
      (reset s).1.socketOpen = false) ∧
    (∀ s : ClientState, is_connected s = true →
      (disconnect s).1.request_queue = s.request_queue) ∧
    (∀ (s : ClientState) (k : String) (resp : Response) (now : Int),
      resp.id = some k →
      (process_commands s (none, some resp) now).1.request_queue =
        (dictPop k s.request_queue).2) := by
  refine ⟨?_, ?_, ?_⟩
  · intro s
    refine ⟨rfl, rfl, rfl⟩
  · intro s h
    simp [disconnect, h, reset, set_state]
  · intro s k resp now hid
    exact process_queue_after_response s k resp now hid

/-- Witness for C1 (amended), at an ACTIVE connection holding one pending
stop-service entry. -/
theorem C1_reset_keeps_pending_table_witness :
    (reset activeStopState).1.request_queue =
      activeStopState.request_queue ∧
    (disconnect activeStopState).1.request_queue =
      activeStopState.request_queue ∧
    (process_commands activeStopState (none, some errResp) 0).1.request_queue =
      (dictPop "0000000000000001" activeStopState.request_queue).2 :=
  ⟨(C1_reset_keeps_pending_table.1 activeStopState).1,
   C1_reset_keeps_pending_table.2.1 activeStopState rfl,
   C1_reset_keeps_pending_table.2.2 activeStopState "0000000000000001"
     errResp 0 rfl⟩

/-- Claim C2 counterexample: an error Response (no `result`) matching the
pending stop-service request does NOT perform the reset — the state stays
ACTIVE and the socket stays open, because the code requires
`resp.is_message()` on that branch. -/
theorem C2_counterexample :
    dictFind "0000000000000001" activeStopState.request_queue =
      some stopReq ∧
    stopReq.method = Commands.STOP_SERVICE_COMMAND ∧
    errResp.id = some "0000000000000001" ∧
    errResp.is_message = false ∧
    errResp.error.isSome = true ∧
    (process_commands activeStopState (none, some errResp) 0).1.state =
      ClientStatus.ACTIVE ∧
    (process_commands activeStopState (none, some errResp) 0).1.socketOpen =
      true :=
  ⟨rfl, rfl, rfl, rfl, rfl, rfl, rfl⟩

/-- Claim C2 (amended): a Response matching a pending stop-service
request performs the full reset — socket closed, state INIT, handler
notified of the new state — exactly when it carries a success result
(`is_message`); an error Response leaves state and socket untouched (see
the counterexample). -/
theorem C2_stop_service_success_resets (s : ClientState) (k : String)
    (req : Request) (resp : Response) (now : Int)
    (hid : resp.id = some k)
    (hfind : dictFind k s.request_queue = some req)
    (hmeth : req.method = Commands.STOP_SERVICE_COMMAND)
    (hmsg : resp.is_message = true)
    (hh : s.hasHandler = true) :
    (process_commands s (none, some resp) now).1.state =
      ClientStatus.INIT ∧
    (process_commands s (none, some resp) now).1.socketOpen = false ∧
    Event.stateChanged ClientStatus.INIT ∈
      (process_commands s (none, some resp) now).2 ∧
    Event.socketClosed ∈ (process_commands s (none, some resp) now).2 := by
  have hpop := dictPop_found hfind
  have hne : ¬(req.method = Commands.ACTIVATE_COMMAND ∧
      resp.is_message = true) := by
    intro hcon
    rw [hmeth] at hcon
    exact absurd hcon.1 (by decide)
  simp only [process_commands, hid]
  cases hp : dictPop k s.request_queue with
  | mk saved q =>
    rw [hp] at hpop
    simp only at hpop
    subst hpop
    simp only
    rw [if_neg hne, if_pos ⟨hmeth, hmsg⟩]
    simp [reset, set_state, hh]

/-- Witness for C2 (amended), at an ACTIVE connection holding the pending
stop-service entry and a success Response. -/
theorem C2_stop_service_success_resets_witness :
    (process_commands activeStopState (none, some okResp) 0).1.state =
      ClientStatus.INIT ∧
    (process_commands activeStopState (none, some okResp) 0).1.socketOpen =
      false ∧
    Event.stateChanged ClientStatus.INIT ∈
      (process_commands activeStopState (none, some okResp) 0).2 ∧
    Event.socketClosed ∈
      (process_commands activeStopState (none, some okResp) 0).2 :=
  C2_stop_service_success_resets activeStopState "0000000000000001"
    stopReq okResp 0 rfl rfl rfl rfl rfl

/-- Claim C6: sending the activation request does not change the
connection state; when a Response arrives whose id matches the pending
activation request and carries a success result, the state becomes
ACTIVE and the handler's state-changed callback fires exactly once with
ACTIVE. -/
theorem C6_activation :
    (∀ (s : ClientState) (command_id : Nat) (license_key : String),
      (activate s command_id license_key).1.state = s.state) ∧
    (∀ (s : ClientState) (k : String) (req : Request) (resp : Response)
        (now : Int),
      resp.id = some k →
      dictFind k s.request_queue = some req →
      req.method = Commands.ACTIVATE_COMMAND →
      resp.is_message = true →
      s.hasHandler = true →
      (process_commands s (none, some resp) now).1.state =
        ClientStatus.ACTIVE ∧
      ((process_commands s (none, some resp) now).2.countP
        (fun e => match e with
          | Event.stateChanged st => st == ClientStatus.ACTIVE
          | _ => false)) = 1) := by
  constructor
  · intro s command_id license_key
    rw [activate, send_request]
    by_cases hc : is_connected s
    · simp [hc, generate_seq_id]
    · simp [hc]
  · intro s k req resp now hid hfind hmeth hmsg hh
    have hpop := dictPop_found hfind
    simp only [process_commands, hid]
    cases hp : dictPop k s.request_queue with
    | mk saved q =>
      rw [hp] at hpop
      simp only at hpop
      subst hpop
      simp only
      rw [if_pos ⟨hmeth, hmsg⟩]
      simp [set_state, hh, List.countP_cons]

/-- Witness for C6: a CONNECTED connection with the pending activation
request receiving the success Response for `"0000000000000001"`. -/
theorem C6_activation_witness :
    (activate connectedState 1 "lic").1.state = connectedState.state ∧
    (process_commands connectedActivateState (none, some okResp) 0).1.state =
      ClientStatus.ACTIVE ∧
    ((process_commands connectedActivateState (none, some okResp) 0).2.countP
      (fun e => match e with
        | Event.stateChanged st => st == ClientStatus.ACTIVE
        | _ => false)) = 1 :=
  ⟨C6_activation.1 connectedState 1 "lic",
   (C6_activation.2 connectedActivateState "0000000000000001" activateReq
      okResp 0 rfl rfl rfl rfl rfl).1,
   (C6_activation.2 connectedActivateState "0000000000000001" activateReq
      okResp 0 rfl rfl rfl rfl rfl).2⟩

/-- Claim C8: from a connected state with an empty pending table, sending
two non-notification requests with distinct 64-bit command identifiers
registers two distinct pending entries; a Response matching the second
removes exactly that entry and leaves the first pending. -/
theorem C8_request_correlation (s : ClientState) (a b : Nat)
    (m1 m2 : String) (p1 p2 : List (String × PyVal)) (resp : Response)
    (now : Int)
    (ha : a < 18446744073709551616) (hb : b < 18446744073709551616)
    (hab : a ≠ b) (hconn : is_connected s = true)
    (hq : s.request_queue = []) (hid : resp.id = some (seqIdStr b)) :
    seqIdStr a ≠ seqIdStr b ∧
    dictFind (seqIdStr a)
      ((send_request (send_request s (some a) m1 p1).1
        (some b) m2 p2).1.request_queue) =
      some { id := some (seqIdStr a), method := m1, params := p1 } ∧
    dictFind (seqIdStr b)
      ((send_request (send_request s (some a) m1 p1).1
        (some b) m2 p2).1.request_queue) =
      some { id := some (seqIdStr b), method := m2, params := p2 } ∧
    dictFind (seqIdStr b)
      ((process_commands
        (send_request (send_request s (some a) m1 p1).1 (some b) m2 p2).1
        (none, some resp) now).1.request_queue) = none ∧
    dictFind (seqIdStr a)
      ((process_commands
        (send_request (send_request s (some a) m1 p1).1 (some b) m2 p2).1
        (none, some resp) now).1.request_queue) =
      some { id := some (seqIdStr a), method := m1, params := p1 } := by
  have hne : seqIdStr a ≠ seqIdStr b := fun h => hab (seqIdStr_inj ha hb h)
  have hs1 : (send_request s (some a) m1 p1).1 =
      { s with request_queue :=
        [(seqIdStr a, Request.mk (some (seqIdStr a)) m1 p1)] } := by
    simp [send_request, hconn, generate_seq_id, hq, dictInsert]
  have hconn1 : is_connected (send_request s (some a) m1 p1).1 = true := by
    rw [hs1]
    simpa [is_connected] using hconn
  have hs2 : (send_request (send_request s (some a) m1 p1).1
      (some b) m2 p2).1 =
      { s with request_queue :=
        [(seqIdStr a, Request.mk (some (seqIdStr a)) m1 p1),
         (seqIdStr b, Request.mk (some (seqIdStr b)) m2 p2)] } := by
    rw [send_request, if_pos hconn1, hs1]
    simp [generate_seq_id, dictInsert, hne]
  have hq3 := process_queue_after_response
    (send_request (send_request s (some a) m1 p1).1 (some b) m2 p2).1
    (seqIdStr b) resp now hid
  refine ⟨hne, ?_, ?_, ?_, ?_⟩
  · rw [hs2]
    simp [dictFind]
  · rw [hs2]
    simp [dictFind, hne]
  · rw [hq3, hs2]
    simp [dictPop, dictFind, hne]
  · rw [hq3, hs2]
    simp [dictPop, dictFind, hne]

/-- Witness for C8: command identifiers 1 and 2 sent from a CONNECTED
connection, then the success Response for identifier 2. -/
theorem C8_request_correlation_witness :
    seqIdStr 1 ≠ seqIdStr 2 ∧
    dictFind (seqIdStr 1)
      ((send_request (send_request connectedState (some 1) "m1" []).1
        (some 2) "m2" []).1.request_queue) =
      some { id := some (seqIdStr 1), method := "m1", params := [] } ∧
    dictFind (seqIdStr 2)
      ((send_request (send_request connectedState (some 1) "m1" []).1
        (some 2) "m2" []).1.request_queue) =
      some { id := some (seqIdStr 2), method := "m2", params := [] } ∧
    dictFind (seqIdStr 2)
      ((process_commands
        (send_request (send_request connectedState (some 1) "m1" []).1
          (some 2) "m2" []).1
        (none, some okResp2) 0).1.request_queue) = none ∧
    dictFind (seqIdStr 1)
      ((process_commands
        (send_request (send_request connectedState (some 1) "m1" []).1
          (some 2) "m2" []).1
        (none, some okResp2) 0).1.request_queue) =
      some { id := some (seqIdStr 1), method := "m1", params := [] } :=
  C8_request_correlation connectedState 1 2 "m1" "m2" [] [] okResp2 0
    (by norm_num) (by norm_num) (by decide) rfl rfl rfl

end PyFastoCloud
